import Mathlib

/-!
Shallow embedding of mojo/public/tools/bindings/generators/mojom_js_generator.py:
the JavaScript bindings generator for mojom modules.  The mojom kind objects,
packed fields, expression tokens and the generator entry points are modelled as
Lean datatypes and total functions; Python exceptions are modelled with
Except, and a Python function that can fall off the end without returning is
modelled with Option (None becomes Option.none).
-/

namespace MojomJs

/-- Tags of the primitive mojom kinds (mojom.BOOL .. mojom.STRING), the
members of mojom.PRIMITIVES. -/
inductive PrimTag where
  | bool
  | int8
  | uint8
  | int16
  | uint16
  | int32
  | uint32
  | float
  | handle
  | dcpipe
  | dppipe
  | msgpipe
  | sharedbuffer
  | int64
  | uint64
  | double
  | string
deriving DecidableEq

/-- A Python value that can reach the kind-dispatching resolvers: one of the
recognized mojom kind objects (a primitive tag, a mojom.Struct carrying its
name, a mojom.Array carrying its element kind, a mojom.Interface, a
mojom.Enum), or a plain Python string.  The string variant both stands for the
struct name that CodecType passes to itself recursively and serves as a
representative unrecognized value (it is not in mojom.PRIMITIVES and is not an
instance of any of the four mojom classes). -/
inductive MojomObj where
  | prim (t : PrimTag)
  | struct (name : String)
  | array (elem : MojomObj)
  | interface (name : String)
  | enum (name : String)
  | pystr (s : String)
deriving DecidableEq

/-- Size measure used to justify termination of the resolvers, which recurse
from mojom.Interface and mojom.Enum to primitive tags and from mojom.Struct to
the plain string holding the struct name. -/
def MojomObj.sz : MojomObj → Nat
  | .pystr _ => 0
  | .prim _ => 1
  | .struct _ => 1
  | .array e => e.sz + 1
  | .interface _ => 2
  | .enum _ => 2

/-- The module-level table _kind_to_javascript_default_value. -/
def kind_to_javascript_default_value : PrimTag → String
  | .bool => "false"
  | .int8 => "0"
  | .uint8 => "0"
  | .int16 => "0"
  | .uint16 => "0"
  | .int32 => "0"
  | .uint32 => "0"
  | .float => "0"
  | .handle => "core.kInvalidHandle"
  | .dcpipe => "core.kInvalidHandle"
  | .dppipe => "core.kInvalidHandle"
  | .msgpipe => "core.kInvalidHandle"
  | .sharedbuffer => "core.kInvalidHandle"
  | .int64 => "0"
  | .uint64 => "0"
  | .double => "0"
  | .string => "\"\""

/-- The module-level table _kind_to_codec_type. -/
def kind_to_codec_type : PrimTag → String
  | .bool => "codec.Uint8"
  | .int8 => "codec.Int8"
  | .uint8 => "codec.Uint8"
  | .int16 => "codec.Int16"
  | .uint16 => "codec.Uint16"
  | .int32 => "codec.Int32"
  | .uint32 => "codec.Uint32"
  | .float => "codec.Float"
  | .handle => "codec.Handle"
  | .dcpipe => "codec.Handle"
  | .dppipe => "codec.Handle"
  | .msgpipe => "codec.Handle"
  | .sharedbuffer => "codec.Handle"
  | .int64 => "codec.Int64"
  | .uint64 => "codec.Uint64"
  | .double => "codec.Double"
  | .string => "codec.String"

/-- Python string interpolation "%s" applied to a value: a string interpolates
as itself.  In every flow of the generator only strings are interpolated, so
the remaining cases carry an opaque placeholder. -/
def pyFormat : MojomObj → String
  | .pystr s => s
  | _ => "<object>"

/-- CodecType(kind): table lookup for primitives, pointer and array wrappers
for struct and array kinds (the struct case calls CodecType on the struct
NAME, a plain string), delegation to MSGPIPE for interfaces, the INT32 table
entry for enums, and for any other value the final `return kind` hands the
value back unchanged. -/
def CodecType : MojomObj → MojomObj
  | .prim t => .pystr (kind_to_codec_type t)
  | .struct name => .pystr ("new codec.PointerTo(" ++ pyFormat (CodecType (.pystr name)) ++ ")")
  | .array elem => .pystr ("new codec.ArrayOf(" ++ pyFormat (CodecType elem) ++ ")")
  | .interface _ => CodecType (.prim .msgpipe)
  | .enum _ => .pystr (kind_to_codec_type .int32)
  | .pystr s => .pystr s
termination_by k => k.sz
decreasing_by all_goals simp [MojomObj.sz]

/-- JavaScriptDecodeSnippet(kind); the Python function returns None (here
Option.none) when the kind matches none of the five recognized cases. -/
def JavaScriptDecodeSnippet : MojomObj → Option String
  | .prim t => some ("decodeStruct(" ++ pyFormat (CodecType (.prim t)) ++ ")")
  | .struct name => some ("decodeStructPointer(" ++ pyFormat (CodecType (.pystr name)) ++ ")")
  | .array elem => some ("decodeArrayPointer(" ++ pyFormat (CodecType elem) ++ ")")
  | .interface _ => JavaScriptDecodeSnippet (.prim .msgpipe)
  | .enum _ => JavaScriptDecodeSnippet (.prim .int32)
  | .pystr _ => none
termination_by k => k.sz
decreasing_by all_goals simp [MojomObj.sz]

/-- JavaScriptEncodeSnippet(kind); same shape as the decode snippet, with a
trailing ", " awaiting the value argument. -/
def JavaScriptEncodeSnippet : MojomObj → Option String
  | .prim t => some ("encodeStruct(" ++ pyFormat (CodecType (.prim t)) ++ ", ")
  | .struct name => some ("encodeStructPointer(" ++ pyFormat (CodecType (.pystr name)) ++ ", ")
  | .array elem => some ("encodeArrayPointer(" ++ pyFormat (CodecType elem) ++ ", ")
  | .interface _ => JavaScriptEncodeSnippet (.prim .msgpipe)
  | .enum _ => JavaScriptEncodeSnippet (.prim .int32)
  | .pystr _ => none
termination_by k => k.sz
decreasing_by all_goals simp [MojomObj.sz]

/-- The Python value stored in field.default: None when the parser recorded no
explicit default, otherwise the recorded default value (a bool, an integer or
a string in this model; what matters to the generator is only its Python
truthiness). -/
inductive DefaultVal where
  | none
  | bool (b : Bool)
  | int (n : Int)
  | str (s : String)
deriving DecidableEq

/-- Python truthiness of a field.default value, as tested by
`if field.default:` — None, False, 0 and the empty string are falsy. -/
def DefaultVal.truthy : DefaultVal → Bool
  | .none => false
  | .bool b => b
  | .int n => n != 0
  | .str s => s != ""

/-- A struct field as seen by the default-value resolver: its kind and its
stored default value. -/
structure Field where
  kind : MojomObj
  default : DefaultVal
deriving DecidableEq

/-- The data-model flag of the spec: the field carries an explicit default
(its stored default is not None). -/
def Field.hasExplicitDefault (f : Field) : Bool :=
  f.default != DefaultVal.none

/-- JavaScriptDefaultValue(field): raises when `if field.default:` is truthy,
otherwise dispatches on the kind; a field whose kind matches none of the five
recognized cases falls off the end (Python returns None, here Option.none). -/
def JavaScriptDefaultValue (field : Field) : Except String (Option String) :=
  if field.default.truthy then
    .error "Default values should have been handled in jinja."
  else
    match field.kind with
    | .prim t => .ok (some (kind_to_javascript_default_value t))
    | .struct _ => .ok (some "null")
    | .array _ => .ok (some "[]")
    | .interface _ => .ok (some (kind_to_javascript_default_value .msgpipe))
    | .enum _ => .ok (some "0")
    | .pystr _ => .ok none

/-- A packed field with its byte offset and byte size, as produced by the
external packing stage (pack.PackedField). -/
structure PackedField where
  offset : Nat
  size : Nat
deriving DecidableEq

/-- Modelled from the spec: pack.GetPad of mojom.generate.pack is not part of
this repository snapshot; the padding that rounds an offset up to a multiple
of the alignment is (alignment - offset mod alignment) mod alignment. -/
def GetPad (offset alignment : Nat) : Nat :=
  (alignment - offset % alignment) % alignment

/-- JavaScriptPayloadSize(packed): 0 for an empty packed-field list, otherwise
the end of the last field rounded up by GetPad to a multiple of 8.  The
packed.packed_fields list is passed directly. -/
def JavaScriptPayloadSize (packed_fields : List PackedField) : Nat :=
  match packed_fields.getLast? with
  | Option.none => 0
  | Option.some last_field =>
    let offset := last_field.offset + last_field.size
    offset + GetPad offset 8

/-- A token of a tokenized expression: either a mojom.Constant reference (the
unique_name of the imported_from module when present, the name of the
parent_kind when present, and the two components of the token name), or a
plain string token (an operator or a literal). -/
inductive Token where
  | constant (importedFrom : Option String) (parentKind : Option String)
      (name0 name1 : String)
  | str (s : String)
deriving DecidableEq

/-- Whether a token is a mojom.Constant reference. -/
def Token.isConstant : Token → Bool
  | .constant _ _ _ _ => true
  | .str _ => false

/-- TranslateConstants(token, module): a constant reference becomes the
"."-join of the optional import alias, the parent-prefixed or bare first name
component, and the member name; any other token is returned unchanged.  The
module argument of the Python function is unused and is dropped here. -/
def TranslateConstants (token : Token) : Token :=
  match token with
  | .constant importedFrom parentKind name0 name1 =>
    let name : List String := []
    let name := match importedFrom with
      | Option.some u => name ++ [u]
      | Option.none => name
    let name := name ++ [match parentKind with
      | Option.some p => p ++ "_" ++ name0
      | Option.none => name0]
    let name := name ++ [name1]
    .str (String.intercalate "." name)
  | .str _ => token

/-- A tokenized expression value: value[0] is the outer tag and the remainder
holds the tokens of the expression. -/
structure ExprValue where
  tag : String
  tokens : List Token
deriving DecidableEq

/-- Modelled from the spec: generator.ExpressionMapper of
mojom.generate.generator is not part of this repository snapshot; it is a
token-rewriting pass that applies the supplied function to every token of the
already-tokenized expression, leaving the surrounding structure untouched. -/
def ExpressionMapper (value : ExprValue) (f : Token → Token) : List Token :=
  value.tokens.map f

/-- The string content of a token, as consumed by "".join; after
TranslateConstants every token is a string, so the constant case is
unreachable there. -/
def tokenText : Token → String
  | .str s => s
  | .constant _ _ _ _ => ""

/-- ExpressionToText(value, module): raises unless value[0] is "EXPRESSION",
otherwise joins the TranslateConstants-rewritten tokens. -/
def ExpressionToText (value : ExprValue) : Except String String :=
  if value.tag != "EXPRESSION" then
    .error ("Expected EXPRESSION, got " ++ value.tag)
  else
    .ok (String.join ((ExpressionMapper value TranslateConstants).map tokenText))

/-- An import entry of a module: a dict carrying the imported module
identifier, into which GetImports writes the "unique_name" alias. -/
structure Import where
  uniqueName : String
  moduleIdentifier : String
deriving DecidableEq

/-- The loop body of Generator.GetImports: walks the import list with the
counter, writing each["unique_name"] = "import" + str(counter). -/
def assignUniqueNames : Nat → List Import → List Import
  | _, [] => []
  | counter, each :: rest =>
    ⟨"import" ++ Nat.repr counter, each.moduleIdentifier⟩ :: assignUniqueNames (counter + 1) rest

/-- Generator.GetImports: assigns each import the alias "import" + str(counter)
with the counter starting at 1, and returns the import list. -/
def GetImports (imports : List Import) : List Import :=
  assignUniqueNames 1 imports

/-- The module IR handed to the generator: its name, its imports and the
entity lists the context aggregates.  The structs implicitly introduced by
method parameter and response lists are carried separately, as returned by
GetStructsFromMethods. -/
structure Module where
  name : String
  imports : List Import
  kinds : List String
  enums : List String
  structs : List String
  methodStructs : List String
  interfaces : List String

/-- Modelled from the spec: Generator.GetStructs of the generator base class
is not part of this repository snapshot; it returns the structs declared by
the module. -/
def GetStructs (m : Module) : List String :=
  m.structs

/-- Modelled from the spec: Generator.GetStructsFromMethods of the generator
base class is not part of this repository snapshot; it returns the structs
implicitly introduced by method parameter and response lists. -/
def GetStructsFromMethods (m : Module) : List String :=
  m.methodStructs

/-- A value of the generation context handed to the renderer. -/
inductive CtxVal where
  | importList (l : List Import)
  | strs (l : List String)
  | mod (m : Module)

/-- Generator.GenerateJsModule: the context dict literal handed to the Jinja
renderer, with its six entries in source order. -/
def GenerateJsModule (m : Module) : List (String × CtxVal) :=
  [("imports", .importList (GetImports m.imports)),
   ("kinds", .strs m.kinds),
   ("enums", .strs m.enums),
   ("module", .mod m),
   ("structs", .strs (GetStructs m ++ GetStructsFromMethods m)),
   ("interfaces", .strs m.interfaces)]

/-- Generator.GenerateFiles: the single self.Write call, producing one output
artifact named "%s.js" % module.name.  An artifact is modelled as the pair of
its file name and the rendered context. -/
def GenerateFiles (m : Module) : List (String × List (String × CtxVal)) :=
  [(m.name ++ ".js", GenerateJsModule m)]

/-- The numeric primitive tags: those whose default literal is the integer
zero literal. -/
def isNumericTag : PrimTag → Bool
  | .int8 => true
  | .uint8 => true
  | .int16 => true
  | .uint16 => true
  | .int32 => true
  | .uint32 => true
  | .int64 => true
  | .uint64 => true
  | .float => true
  | .double => true
  | _ => false

/-- The handle-family primitive tags. -/
def isHandleTag : PrimTag → Bool
  | .handle => true
  | .dcpipe => true
  | .dppipe => true
  | .msgpipe => true
  | .sharedbuffer => true
  | _ => false

/-- C1: the Codec Resolver gives InterfaceRef(x) the same codec descriptor as
the message-pipe primitive and EnumRef(x) the same descriptor as the int32
primitive, and the decode and encode snippets obey the identical aliasing, so
the Codec Resolver and Snippet Emitter never diverge on these cases. -/
theorem codec_and_snippets_alias_invariant :
    ∀ x : String,
      CodecType (.interface x) = CodecType (.prim .msgpipe) ∧
      CodecType (.enum x) = CodecType (.prim .int32) ∧
      JavaScriptDecodeSnippet (.interface x) = JavaScriptDecodeSnippet (.prim .msgpipe) ∧
      JavaScriptDecodeSnippet (.enum x) = JavaScriptDecodeSnippet (.prim .int32) ∧
      JavaScriptEncodeSnippet (.interface x) = JavaScriptEncodeSnippet (.prim .msgpipe) ∧
      JavaScriptEncodeSnippet (.enum x) = JavaScriptEncodeSnippet (.prim .int32) := by
  intro x
  refine ⟨?_, ?_, ?_, ?_, ?_, ?_⟩ <;>
    simp [CodecType, JavaScriptDecodeSnippet, JavaScriptEncodeSnippet, kind_to_codec_type]

/-- C2: payloadSize of an empty packed-field list is 0; for a non-empty list
it is raw = lastField.byteOffset + lastField.byteSize rounded up to the next
multiple of 8, that is raw + (8 - raw mod 8) mod 8; a single field at offset 0
with size 1 yields 8, and a list whose last field has offset 9 and size 4
yields 16. -/
theorem payloadSize_rounds_up_to_multiple_of_8 :
    JavaScriptPayloadSize [] = 0 ∧
    (∀ (fs : List PackedField) (lf : PackedField), fs.getLast? = some lf →
      JavaScriptPayloadSize fs
          = (lf.offset + lf.size) + (8 - (lf.offset + lf.size) % 8) % 8 ∧
        8 ∣ JavaScriptPayloadSize fs ∧
        lf.offset + lf.size ≤ JavaScriptPayloadSize fs ∧
        JavaScriptPayloadSize fs < lf.offset + lf.size + 8) ∧
    JavaScriptPayloadSize [⟨0, 1⟩] = 8 ∧
    JavaScriptPayloadSize [⟨0, 1⟩, ⟨9, 4⟩] = 16 := by
  refine ⟨rfl, ?_, rfl, rfl⟩
  intro fs lf h
  have hsz : JavaScriptPayloadSize fs
      = (lf.offset + lf.size) + GetPad (lf.offset + lf.size) 8 := by
    unfold JavaScriptPayloadSize
    rw [h]
  rw [hsz]
  unfold GetPad
  omega

/-- Witness for C2 at the concrete list whose last field has offset 9 and
size 4 (raw = 13, result 16). -/
theorem payloadSize_rounds_up_witness :
    JavaScriptPayloadSize [(⟨9, 4⟩ : PackedField)]
        = (9 + 4) + (8 - (9 + 4) % 8) % 8 ∧
      8 ∣ JavaScriptPayloadSize [(⟨9, 4⟩ : PackedField)] ∧
      9 + 4 ≤ JavaScriptPayloadSize [(⟨9, 4⟩ : PackedField)] ∧
      JavaScriptPayloadSize [(⟨9, 4⟩ : PackedField)] < 9 + 4 + 8 :=
  payloadSize_rounds_up_to_multiple_of_8.2.1 [⟨9, 4⟩] ⟨9, 4⟩ rfl

/-- C3: for every Field without an explicit default, the default literal is
the documented zero literal of its Kind: numeric primitives and enum
references give "0", bool gives "false", string gives the empty-string
literal, struct references give "null", arrays give "[]", and interface
references and every handle-family primitive give the same invalid-handle
sentinel as the message-pipe primitive. -/
theorem default_literal_zero_values :
    (∀ t : PrimTag, isNumericTag t = true →
      JavaScriptDefaultValue ⟨.prim t, .none⟩ = .ok (some "0")) ∧
    (∀ n : String, JavaScriptDefaultValue ⟨.enum n, .none⟩ = .ok (some "0")) ∧
    JavaScriptDefaultValue ⟨.prim .bool, .none⟩ = .ok (some "false") ∧
    JavaScriptDefaultValue ⟨.prim .string, .none⟩ = .ok (some "\"\"") ∧
    (∀ n : String, JavaScriptDefaultValue ⟨.struct n, .none⟩ = .ok (some "null")) ∧
    (∀ e : MojomObj, JavaScriptDefaultValue ⟨.array e, .none⟩ = .ok (some "[]")) ∧
    (∀ n : String, JavaScriptDefaultValue ⟨.interface n, .none⟩
        = JavaScriptDefaultValue ⟨.prim .msgpipe, .none⟩) ∧
    (∀ t : PrimTag, isHandleTag t = true →
      JavaScriptDefaultValue ⟨.prim t, .none⟩
          = JavaScriptDefaultValue ⟨.prim .msgpipe, .none⟩) ∧
    JavaScriptDefaultValue ⟨.prim .msgpipe, .none⟩ = .ok (some "core.kInvalidHandle") := by
  refine ⟨?_, fun n => rfl, rfl, rfl, fun n => rfl, fun e => rfl, fun n => rfl, ?_, rfl⟩
  · intro t ht
    cases t <;> (try exact rfl) <;> simp [isNumericTag] at ht
  · intro t ht
    cases t <;> (try exact rfl) <;> simp [isHandleTag] at ht

/-- Witness for C3 at the int8 and handle primitives. -/
theorem default_literal_zero_values_witness :
    JavaScriptDefaultValue ⟨.prim .int8, .none⟩ = .ok (some "0") ∧
    JavaScriptDefaultValue ⟨.prim .handle, .none⟩
        = JavaScriptDefaultValue ⟨.prim .msgpipe, .none⟩ :=
  ⟨default_literal_zero_values.1 .int8 (by decide),
   default_literal_zero_values.2.2.2.2.2.2.2.1 .handle (by decide)⟩

/-- C4 counterexample: a field whose explicit default is the falsy Python
value 0 has hasExplicitDefault = true, yet the resolver does not raise and
returns the zero literal of the kind. -/
theorem default_resolver_accepts_falsy_explicit_default :
    Field.hasExplicitDefault ⟨.prim .bool, .int 0⟩ = true ∧
    JavaScriptDefaultValue ⟨.prim .bool, .int 0⟩ = .ok (some "false") :=
  ⟨rfl, rfl⟩

/-- C4 (amended): the resolver raises exactly when the stored default value is
truthy; every field whose stored default is truthy fails and never receives a
literal. -/
theorem default_resolver_raises_on_truthy_default :
    ∀ f : Field, f.default.truthy = true →
      JavaScriptDefaultValue f
          = .error "Default values should have been handled in jinja." := by
  intro f h
  simp [JavaScriptDefaultValue, h]

/-- Witness for the amended C4 at a field with default True. -/
theorem default_resolver_raises_witness :
    JavaScriptDefaultValue ⟨.prim .bool, .bool true⟩
        = .error "Default values should have been handled in jinja." :=
  default_resolver_raises_on_truthy_default ⟨.prim .bool, .bool true⟩ rfl

/-- C10: the resolver raises if and only if the stored default value is
truthy, and a field with a falsy stored default (0, False, the empty string or
None) resolves exactly like a field with no default at all. -/
theorem default_resolver_truthiness_gate :
    ∀ f : Field,
      ((∃ e, JavaScriptDefaultValue f = .error e) ↔ f.default.truthy = true) ∧
      (f.default.truthy = false →
        JavaScriptDefaultValue f = JavaScriptDefaultValue ⟨f.kind, .none⟩) := by
  intro f
  obtain ⟨k, d⟩ := f
  constructor
  · constructor
    · rintro ⟨e, he⟩
      cases hd : DefaultVal.truthy d
      · exfalso
        simp only [JavaScriptDefaultValue, hd] at he
        simp at he
        cases k <;> simp at he
      · rfl
    · intro hd
      exact ⟨"Default values should have been handled in jinja.",
        by simp only [JavaScriptDefaultValue, hd]; rfl⟩
  · intro hd
    simp only [JavaScriptDefaultValue, hd]
    rfl

/-- Witness for C10: a falsy explicit default (integer 0) resolves like no
default. -/
theorem default_resolver_truthiness_gate_witness :
    JavaScriptDefaultValue ⟨.prim .uint8, .int 0⟩
        = JavaScriptDefaultValue ⟨.prim .uint8, .none⟩ :=
  (default_resolver_truthiness_gate ⟨.prim .uint8, .int 0⟩).2 (by decide)

/-- C5: a constant-reference token translates to the dot-join of the
optional import alias, the parent-prefixed or bare first name component, and
the member name; any other token passes through unchanged; ("Color","RED") with no parent
and no import gives "Color.RED" and with parent "Shape" gives
"Shape_Color.RED". -/
theorem translate_constants_dot_join :
    (∀ n0 n1 : String,
      TranslateConstants (.constant Option.none Option.none n0 n1)
          = .str (n0 ++ "." ++ n1)) ∧
    (∀ u n0 n1 : String,
      TranslateConstants (.constant (Option.some u) Option.none n0 n1)
          = .str (u ++ "." ++ n0 ++ "." ++ n1)) ∧
    (∀ p n0 n1 : String,
      TranslateConstants (.constant Option.none (Option.some p) n0 n1)
          = .str (p ++ "_" ++ n0 ++ "." ++ n1)) ∧
    (∀ u p n0 n1 : String,
      TranslateConstants (.constant (Option.some u) (Option.some p) n0 n1)
          = .str (u ++ "." ++ p ++ "_" ++ n0 ++ "." ++ n1)) ∧
    (∀ t : Token, t.isConstant = false → TranslateConstants t = t) ∧
    TranslateConstants (.constant Option.none Option.none "Color" "RED")
        = .str "Color.RED" ∧
    TranslateConstants (.constant Option.none (Option.some "Shape") "Color" "RED")
        = .str "Shape_Color.RED" := by
  refine ⟨?_, ?_, ?_, ?_, ?_, by decide, by decide⟩
  · intro n0 n1
    simp [TranslateConstants, String.intercalate, String.intercalate.go]
  · intro u n0 n1
    simp [TranslateConstants, String.intercalate, String.intercalate.go, String.append_assoc]
  · intro p n0 n1
    simp [TranslateConstants, String.intercalate, String.intercalate.go, String.append_assoc]
  · intro u p n0 n1
    simp [TranslateConstants, String.intercalate, String.intercalate.go, String.append_assoc]
  · intro t ht
    cases t
    · simp [Token.isConstant] at ht
    · rfl

/-- Witness for C5 at a non-constant token. -/
theorem translate_constants_dot_join_witness :
    TranslateConstants (.str "+") = .str "+" :=
  translate_constants_dot_join.2.2.2.2.1 (.str "+") (by decide)

/-- C6 counterexample: the plain string "Foo" is not a recognized Kind
variant, yet no resolver aborts on it: the Codec Resolver hands it back
unchanged, the Snippet Emitter returns no result (Python None), and the
Default Value Resolver returns successfully with no result. -/
theorem unrecognized_value_no_abort :
    CodecType (.pystr "Foo") = .pystr "Foo" ∧
    JavaScriptDecodeSnippet (.pystr "Foo") = none ∧
    JavaScriptEncodeSnippet (.pystr "Foo") = none ∧
    JavaScriptDefaultValue ⟨.pystr "Foo", .none⟩ = .ok none := by
  refine ⟨?_, ?_, ?_, rfl⟩ <;>
    simp [CodecType, JavaScriptDecodeSnippet, JavaScriptEncodeSnippet]

/-- C6 (amended): an unrecognized value reaching the resolvers is passed
through silently rather than aborting generation: CodecType returns it
unchanged, the decode and encode snippet emitters return no result, and the
Default Value Resolver returns successfully with no result. -/
theorem unrecognized_value_falls_through :
    ∀ s : String,
      CodecType (.pystr s) = .pystr s ∧
      JavaScriptDecodeSnippet (.pystr s) = none ∧
      JavaScriptEncodeSnippet (.pystr s) = none ∧
      JavaScriptDefaultValue ⟨.pystr s, .none⟩ = .ok none := by
  intro s
  refine ⟨?_, ?_, ?_, rfl⟩ <;>
    simp [CodecType, JavaScriptDecodeSnippet, JavaScriptEncodeSnippet]

/-- C8: expression translation raises exactly on a wrong outer tag, succeeds
on the "EXPRESSION" tag by joining the rewritten tokens, and the rewriting
pass leaves every non-constant token of the expression untouched at its
position. -/
theorem expression_to_text_tag_gate :
    (∀ v : ExprValue, v.tag ≠ "EXPRESSION" →
      ExpressionToText v = .error ("Expected EXPRESSION, got " ++ v.tag)) ∧
    (∀ v : ExprValue, v.tag = "EXPRESSION" →
      ExpressionToText v
          = .ok (String.join ((ExpressionMapper v TranslateConstants).map tokenText))) ∧
    (∀ (v : ExprValue) (i : Nat) (t : Token), v.tokens[i]? = some t →
      t.isConstant = false →
      (ExpressionMapper v TranslateConstants)[i]? = some t) := by
  refine ⟨?_, ?_, ?_⟩
  · intro v hv
    simp [ExpressionToText, hv]
  · intro v hv
    simp [ExpressionToText, hv]
  · intro v i t ht hc
    have hfix : TranslateConstants t = t := by
      cases t
      · simp [Token.isConstant] at hc
      · rfl
    simp [ExpressionMapper, List.getElem?_map, ht, hfix]

/-- Witness for C8 at a wrong-tag value, a correct expression, and a
non-constant token. -/
theorem expression_to_text_tag_gate_witness :
    ExpressionToText ⟨"FOO", []⟩ = .error ("Expected EXPRESSION, got " ++ "FOO") ∧
    ExpressionToText ⟨"EXPRESSION", [.str "1"]⟩
        = .ok (String.join
            ((ExpressionMapper ⟨"EXPRESSION", [.str "1"]⟩ TranslateConstants).map tokenText)) ∧
    (ExpressionMapper ⟨"EXPRESSION", [.str "+"]⟩ TranslateConstants)[0]? = some (.str "+") :=
  ⟨expression_to_text_tag_gate.1 ⟨"FOO", []⟩ (by decide),
   expression_to_text_tag_gate.2.1 ⟨"EXPRESSION", [.str "1"]⟩ rfl,
   expression_to_text_tag_gate.2.2 ⟨"EXPRESSION", [.str "+"]⟩ 0 (.str "+") rfl rfl⟩

/-- One unfolding step of Nat.toDigitsCore at positive fuel. -/
lemma toDigitsCore_step (f n : Nat) (acc : List Char) :
    Nat.toDigitsCore 10 (f + 1) n acc
      = (if n / 10 = 0 then (n % 10).digitChar :: acc
         else Nat.toDigitsCore 10 f (n / 10) ((n % 10).digitChar :: acc)) := by
  rw [Nat.toDigitsCore]

/-- With enough fuel, Nat.toDigitsCore produces the base-10 digits of n (most
significant first) in front of the accumulator. -/
lemma toDigitsCore_eq_digits :
    ∀ (f n : Nat) (acc : List Char), 0 < n → n < f →
      Nat.toDigitsCore 10 f n acc
        = ((Nat.digits 10 n).map Nat.digitChar).reverse ++ acc := by
  intro f
  induction f with
  | zero =>
    intro n acc h0 hf
    omega
  | succ f ih =>
    intro n acc h0 hf
    rw [toDigitsCore_step]
    by_cases hn : n / 10 = 0
    · rw [if_pos hn, Nat.digits_def' (by norm_num : (1 : Nat) < 10) h0, hn]
      simp
    · rw [if_neg hn, ih (n / 10) _ (Nat.pos_of_ne_zero hn)
        (by
          have h1 : n / 10 < n := Nat.div_lt_self h0 (by norm_num)
          omega)]
      rw [Nat.digits_def' (by norm_num : (1 : Nat) < 10) h0]
      simp

/-- For positive n, Nat.toDigits 10 n is the reversed digit-character list. -/
lemma toDigits_eq_digits (n : Nat) (h0 : 0 < n) :
    Nat.toDigits 10 n = ((Nat.digits 10 n).map Nat.digitChar).reverse := by
  unfold Nat.toDigits
  rw [toDigitsCore_eq_digits (n + 1) n [] h0 (by omega)]
  simp

/-- Nat.digitChar is injective below 10. -/
lemma digitChar_inj_lt :
    ∀ d1 < 10, ∀ d2 < 10, Nat.digitChar d1 = Nat.digitChar d2 → d1 = d2 := by
  decide

/-- Mapping Nat.digitChar over lists of base-10 digits is injective. -/
lemma map_digitChar_inj :
    ∀ l1 l2 : List Nat, (∀ d ∈ l1, d < 10) → (∀ d ∈ l2, d < 10) →
      l1.map Nat.digitChar = l2.map Nat.digitChar → l1 = l2 := by
  intro l1
  induction l1 with
  | nil =>
    intro l2 _ _ h
    cases l2 with
    | nil => rfl
    | cons b t => simp at h
  | cons a l ih =>
    intro l2 h1 h2 h
    cases l2 with
    | nil => simp at h
    | cons b t =>
      simp only [List.map_cons, List.cons.injEq] at h
      have ha : a = b :=
        digitChar_inj_lt a (h1 a (by simp)) b (h2 b (by simp)) h.1
      have hl : l = t :=
        ih t (fun d hd => h1 d (by simp [hd])) (fun d hd => h2 d (by simp [hd])) h.2
      rw [ha, hl]

/-- The data of Nat.repr n, for positive n, is the reversed digit-character
list of n. -/
lemma repr_data_of_pos (n : Nat) (h0 : 0 < n) :
    (Nat.repr n).data = ((Nat.digits 10 n).map Nat.digitChar).reverse := by
  unfold Nat.repr
  rw [toDigits_eq_digits n h0]
  rfl

/-- The decimal representation of a positive number is not "0". -/
lemma repr_pos_ne_repr_zero (n : Nat) (hn : 0 < n) : Nat.repr n ≠ Nat.repr 0 := by
  intro h
  have hd := congrArg String.data h
  rw [repr_data_of_pos n hn] at hd
  have hz : (Nat.repr 0).data = ['0'] := rfl
  rw [hz] at hd
  have h2 : (Nat.digits 10 n).map Nat.digitChar = ['0'] := by
    have h3 := congrArg List.reverse hd
    simpa using h3
  cases hdig : Nat.digits 10 n with
  | nil =>
    rw [hdig] at h2
    simp at h2
  | cons d ds =>
    rw [hdig] at h2
    have hds : ds = [] := by
      cases ds with
      | nil => rfl
      | cons x xs => simp at h2
    subst hds
    simp only [List.map_cons, List.map_nil, List.cons.injEq] at h2
    have hdlt : d < 10 :=
      Nat.digits_lt_base (by norm_num) (by rw [hdig]; simp)
    have hd0 : d = 0 :=
      digitChar_inj_lt d hdlt 0 (by norm_num) (by simpa using h2.1)
    have hof := Nat.ofDigits_digits 10 n
    rw [hdig, hd0] at hof
    simp [Nat.ofDigits] at hof
    omega

/-- Nat.repr is injective: equal decimal strings come from equal numbers. -/
lemma Nat_repr_injective : ∀ m n : Nat, Nat.repr m = Nat.repr n → m = n := by
  intro m n h
  rcases Nat.eq_zero_or_pos m with hm | hm <;> rcases Nat.eq_zero_or_pos n with hn | hn
  · rw [hm, hn]
  · exact absurd h.symm (repr_pos_ne_repr_zero n hn ∘ (hm ▸ id))
  · exact absurd h (hn ▸ repr_pos_ne_repr_zero m hm)
  · have hdm := repr_data_of_pos m hm
    have hdn := repr_data_of_pos n hn
    have hrev : ((Nat.digits 10 m).map Nat.digitChar).reverse
        = ((Nat.digits 10 n).map Nat.digitChar).reverse := by
      rw [← hdm, ← hdn, h]
    have hmap := List.reverse_injective hrev
    have hdig := map_digitChar_inj _ _
      (fun d hd => Nat.digits_lt_base (by norm_num) hd)
      (fun d hd => Nat.digits_lt_base (by norm_num) hd) hmap
    have hof := congrArg (Nat.ofDigits 10) hdig
    rwa [Nat.ofDigits_digits, Nat.ofDigits_digits] at hof

/-- Appending to a fixed string on the left is injective. -/
lemma string_append_left_cancel {s t1 t2 : String} (h : s ++ t1 = s ++ t2) :
    t1 = t2 := by
  apply String.ext
  have hd := congrArg String.data h
  rw [String.data_append, String.data_append] at hd
  exact List.append_cancel_left hd

/-- The aliases assigned by the GetImports loop starting at counter c are
"import" + str(c + i) for the import at position i. -/
lemma assignUniqueNames_map_uniqueName :
    ∀ (l : List Import) (c : Nat),
      (assignUniqueNames c l).map Import.uniqueName
        = (List.range l.length).map (fun i => "import" ++ Nat.repr (c + i)) := by
  intro l
  induction l with
  | nil =>
    intro c
    simp [assignUniqueNames]
  | cons a l ih =>
    intro c
    have hshift : ∀ i : Nat, c + 1 + i = c + (i + 1) := by omega
    simp [assignUniqueNames, ih (c + 1), List.range_succ_eq_map, List.map_map,
      Function.comp, hshift]

/-- The aliases assigned within one GetImports run are pairwise distinct. -/
lemma getImports_aliases_pairwise (l : List Import) :
    ((GetImports l).map Import.uniqueName).Pairwise (· ≠ ·) := by
  rw [GetImports, assignUniqueNames_map_uniqueName]
  refine List.Pairwise.map _ ?_ (List.pairwise_lt_range l.length)
  intro a b hab hcontra
  have h2 := string_append_left_cancel hcontra
  have h3 := Nat_repr_injective _ _ h2
  omega

/-- C7: each of the n imports of a module receives the alias derived solely
from its 1-based position in the import list, so all n aliases are pairwise
distinct regardless of import content, and re-running assembly on a module
with the same import-list length yields identical aliases. -/
theorem import_aliases_positional_and_distinct :
    (∀ imports : List Import,
      (GetImports imports).map Import.uniqueName
        = (List.range imports.length).map (fun i => "import" ++ Nat.repr (i + 1))) ∧
    (∀ imports : List Import,
      ((GetImports imports).map Import.uniqueName).Pairwise (· ≠ ·)) ∧
    (∀ l1 l2 : List Import, l1.length = l2.length →
      (GetImports l1).map Import.uniqueName = (GetImports l2).map Import.uniqueName) := by
  have hmap : ∀ imports : List Import,
      (GetImports imports).map Import.uniqueName
        = (List.range imports.length).map (fun i => "import" ++ Nat.repr (i + 1)) := by
    intro imports
    rw [GetImports, assignUniqueNames_map_uniqueName]
    have h1 : ∀ i : Nat, 1 + i = i + 1 := by omega
    simp [h1]
  refine ⟨hmap, getImports_aliases_pairwise, ?_⟩
  intro l1 l2 hlen
  rw [hmap l1, hmap l2, hlen]

/-- Witness for C7: two two-import modules with different contents receive the
same pair of distinct aliases. -/
theorem import_aliases_witness :
    (GetImports [⟨"", "a"⟩, ⟨"", "b"⟩]).map Import.uniqueName
        = (GetImports [⟨"x", "c"⟩, ⟨"y", "d"⟩]).map Import.uniqueName :=
  import_aliases_positional_and_distinct.2.2
    [⟨"", "a"⟩, ⟨"", "b"⟩] [⟨"x", "c"⟩, ⟨"y", "d"⟩] rfl

/-- C9: the generation context handed to the renderer contains exactly the six
keys imports, kinds, enums, module, structs and interfaces, in that order, and
exactly one output artifact is produced per module, named after the module. -/
theorem generate_context_keys_and_single_artifact :
    ∀ m : Module,
      (GenerateJsModule m).map Prod.fst
          = ["imports", "kinds", "enums", "module", "structs", "interfaces"] ∧
      (GenerateFiles m).map Prod.fst = [m.name ++ ".js"] ∧
      (GenerateFiles m).length = 1 := by
  intro m
  exact ⟨rfl, rfl, rfl⟩

end MojomJs
